import Mathlib

/-!
Verification of the YouTube live-chat bot (repository `chatbot_youtube`).

The repository holds two single-file variants of the same bot:
  * `src/chatbot.js` — the "smart" edition (per-user history, hourly response
    cap, admin mode switches);
  * `src/unnamed/part_000` — the "quota-optimized" edition (daily quota
    accounting, streaming-hour window).

Both are embedded shallowly below: every stateful method becomes a pure
function from an explicit state (plus the environment inputs the method
reads: current time, API results, `Math.random()` draws) to a new state and
an observable outcome.  Timestamps are integers (milliseconds), random draws
are rationals in `[0, 1)`, fallible JavaScript property accesses are made
explicit.
-/

/-- Substring test on character lists: `needle` occurs somewhere in the
remaining haystack.  Mirrors JavaScript `String.prototype.includes`. -/
def listContainsSub (needle : List Char) : List Char → Bool
  | [] => needle.isEmpty
  | c :: t => needle.isPrefixOf (c :: t) || listContainsSub needle t

/-- JavaScript `hay.includes(needle)`. -/
def strIncludes (hay needle : String) : Bool :=
  listContainsSub needle.toList hay.toList

/-- JavaScript `x || d` for an optional string `x` (both `undefined`/`null`
and the empty string are falsy). -/
def jsOrStr (o : Option String) (d : String) : String :=
  match o with
  | some s => if s = "" then d else s
  | none => d

/-- JavaScript `x || d` for an optional number `x` (both `undefined` and `0`
are falsy). -/
def jsOrNat (o : Option ℕ) (d : ℕ) : ℕ :=
  match o with
  | some k => if k = 0 then d else k
  | none => d

/-- Index computed by `Math.floor(Math.random() * responses.length)` where
`r` is the value returned by `Math.random()`. -/
def pickIdx (len : ℕ) (r : ℚ) : ℕ :=
  (Int.floor (r * len)).toNat

/-- Both variants' `getRandomResponse(responses)`:
`responses[Math.floor(Math.random() * responses.length)]`.  An out-of-range
index (impossible for `r ∈ [0,1)` and a non-empty list) is modelled by `""`.
-/
def getRandomResponse (responses : List String) (r : ℚ) : String :=
  responses.getD (pickIdx responses.length r) ""

/-- Decidable equality for `Except`, used to evaluate concrete runs of the
fallible response generator. -/
def exceptDecEq {e a : Type} [DecidableEq e] [DecidableEq a] :
    DecidableEq (Except e a)
  | .error x, .error y =>
    if h : x = y then .isTrue (by rw [h])
    else .isFalse (by intro hc; cases hc; exact h rfl)
  | .error _, .ok _ => .isFalse (by intro hc; cases hc)
  | .ok _, .error _ => .isFalse (by intro hc; cases hc)
  | .ok x, .ok y =>
    if h : x = y then .isTrue (by rw [h])
    else .isFalse (by intro hc; cases hc; exact h rfl)

instance {e a : Type} [DecidableEq e] [DecidableEq a] :
    DecidableEq (Except e a) := exceptDecEq

/-- One chat message as consumed by `processMessage`: the author display
name and the display text. -/
structure ChatMsg where
  author : String
  text : String
deriving DecidableEq, Repr

/-- One page returned by the `liveChatMessages.list` call: the items, the
new continuation token, and the server-suggested polling interval. -/
structure PollPage where
  items : List ChatMsg
  nextPageToken : Option String
  pollingIntervalMillis : Option ℕ
deriving DecidableEq, Repr

/-- Outcome of one `pollMessages` iteration (which timer, if any, the
iteration schedules next). -/
inductive PollStepResult where
  /-- The guard `!this.isRunning || !this.liveChatId` returned early. -/
  | notPolling : PollStepResult
  /-- Quota-optimized variant only: the quota gate stopped monitoring. -/
  | quotaStop : PollStepResult
  /-- The error message indicated the chat was disabled or the stream was
  not found: the session was torn down, no timer is scheduled. -/
  | ended : PollStepResult
  /-- Any other error: retry timer of `ms` milliseconds, state untouched. -/
  | retry (ms : ℕ) : PollStepResult
  /-- Success: next poll scheduled after `ms` milliseconds. -/
  | nextPoll (ms : ℕ) : PollStepResult
deriving DecidableEq, Repr

namespace Smart

/-- Configuration fields of `src/chatbot.js` that the response engine
reads: `BOT_NAME` (default `GameBuddy`) and `OWNER_USERNAME` (default
empty). -/
structure Cfg where
  botName : String
  ownerUsername : String
deriving DecidableEq, Repr

/-- Per-author record stored in the `chatHistory` map by `trackUser`. -/
structure UserRecord where
  messageCount : ℕ
  firstSeen : ℤ
  isNew : Bool
deriving DecidableEq, Repr

/-- Mutable state of the smart-edition bot object (the fields touched by
the embedded methods). -/
structure State where
  videoId : Option String
  liveChatId : Option String
  nextPageToken : Option String
  isRunning : Bool
  lastResponseTime : ℤ
  chatHistory : List (String × UserRecord)
  responseCount : ℕ
  maxResponsesPerHour : ℕ
  hourlyReset : ℤ
deriving DecidableEq, Repr

/-- State set up by the constructor (`hourlyReset` is the construction
time `t0`; `maxResponsesPerHour` starts at 20). -/
def initState (t0 : ℤ) : State :=
  { videoId := none, liveChatId := none, nextPageToken := none
    isRunning := false, lastResponseTime := 0, chatHistory := []
    responseCount := 0, maxResponsesPerHour := 20, hourlyReset := t0 }

/-- `this.chatHistory.get(author)`. -/
def histGet (h : List (String × UserRecord)) (author : String) : Option UserRecord :=
  h.lookup author

/-- `this.chatHistory.set(author, u)` (replace an existing binding, else
append). -/
def histSet : List (String × UserRecord) → String → UserRecord → List (String × UserRecord)
  | [], author, u => [(author, u)]
  | (b, v) :: t, author, u =>
      if b = author then (author, u) :: t else (b, v) :: histSet t author u

/-- The response phrase lists from the smart edition's constructor. -/
def greetings : List String :=
  ["Hey there! Welcome to the stream! 🎮",
   "What\x27s up! Great to see you here! 🔥",
   "Welcome to the party! 🚀",
   "Hey! Thanks for stopping by! 😊"]

/-- `this.responses.reactions.amazing`. -/
def amazingReplies : List String :=
  ["That was incredible! 🔥", "AMAZING play!", "No way! How?! 🤯"]

/-- `this.responses.reactions.fail`. -/
def failReplies : List String :=
  ["Ouch! 😅", "We\x27ve all been there!", "Next time! 💪"]

/-- `this.responses.reactions.clutch`. -/
def clutchReplies : List String :=
  ["CLUTCH! 🔥", "That was close!", "Heart attack moment! 😱"]

/-- `this.responses.reactions.funny`. -/
def funnyReplies : List String :=
  ["LMAO 😂", "That\x27s hilarious!", "LOL! 🤣"]

/-- The inline `randomEngagements` list of `generateSmartResponse`. -/
def randomEngagements : List String :=
  ["This stream is awesome! 🔥",
   "Great community here! ❤️",
   "Loving the gameplay! 🎮"]

/-- Greeting word list of `containsGreeting`. -/
def greetingWords : List String :=
  ["hello", "hi", "hey", "sup", "what\x27s up", "good morning", "good evening"]

/-- `containsGreeting(text)`: some greeting word occurs in the text. -/
def containsGreeting (text : String) : Bool :=
  greetingWords.any (fun g => strIncludes text g)

/-- The `Math.random()` draws `generateSmartResponse` may consume: one per
probabilistic branch and one for the phrase selection inside
`getRandomResponse`. -/
structure Rand where
  rAmazing : ℚ
  rFail : ℚ
  rClutch : ℚ
  rFunny : ℚ
  rAmbient : ℚ
  rPick : ℚ
deriving DecidableEq, Repr

/-- Reply of the `!status` admin command. -/
def statusReply (st : State) : String :=
  "🤖 Status: Active | Stream: " ++ jsOrStr st.videoId "none" ++
    " | Responses: " ++ toString st.responseCount ++ "/" ++
    toString st.maxResponsesPerHour

/-- Everything of `generateSmartResponse` after the owner-only admin block
(the part every author reaches).  The result carries the reply (if any) and
the value of `maxResponsesPerHour` after the call; `.error ()` is the
JavaScript `TypeError` thrown by `userData.isNew` when the author has no
`chatHistory` record. -/
def smartCommon (text author : String) (st : State) (r : Rand) :
    Except Unit (Option String × ℕ) :=
  -- `const userData = this.chatHistory.get(author);`
  -- `if (this.containsGreeting(text) && userData.isNew)`
  if containsGreeting text then
    match histGet st.chatHistory author with
    | none => .error ()
    | some u =>
      if u.isNew then
        .ok (some (getRandomResponse greetings r.rPick), st.maxResponsesPerHour)
      else .ok (smartRest text r, st.maxResponsesPerHour)
  else .ok (smartRest text r, st.maxResponsesPerHour)
where
  /-- The keyword / FAQ / ambient chain after the greeting branch. -/
  smartRest (text : String) (r : Rand) : Option String :=
    if (strIncludes text "amazing" || strIncludes text "incredible" ||
        strIncludes text "insane") && decide (r.rAmazing < 3/10) then
      some (getRandomResponse amazingReplies r.rPick)
    else if (strIncludes text "fail" || strIncludes text "died" ||
        strIncludes text "rip") && decide (r.rFail < 2/10) then
      some (getRandomResponse failReplies r.rPick)
    else if (strIncludes text "clutch" || strIncludes text "close call") &&
        decide (r.rClutch < 4/10) then
      some (getRandomResponse clutchReplies r.rPick)
    else if (strIncludes text "funny" || strIncludes text "lol" ||
        strIncludes text "haha") && decide (r.rFunny < 25/100) then
      some (getRandomResponse funnyReplies r.rPick)
    else if strIncludes text "how are you" then
      some "I\x27m doing great! Thanks for asking! How are you enjoying the stream? 😊"
    else if strIncludes text "what game" then
      some "This game looks amazing! I love watching these streams! 🎮"
    else if strIncludes text "bot" &&
        (strIncludes text "are you" || strIncludes text "real") then
      some "Yep, I\x27m a bot! 🤖 But I\x27m here to hang out and enjoy the stream with everyone!"
    else if decide (r.rAmbient < 5/100) then
      some (getRandomResponse randomEngagements r.rPick)
    else none

/-- `generateSmartResponse(text, author)` of `src/chatbot.js`.  Returns the
optional reply together with the (possibly mode-switched) value of
`this.maxResponsesPerHour` after the call. -/
def generateSmartResponse (cfg : Cfg) (text author : String) (st : State)
    (r : Rand) : Except Unit (Option String × ℕ) :=
  if author = cfg.ownerUsername then
    if text = "!status" then .ok (some (statusReply st), st.maxResponsesPerHour)
    else if text = "!ping" then .ok (some "🏓 Pong!", st.maxResponsesPerHour)
    else if text.startsWith "!say " then .ok (some (text.drop 5), st.maxResponsesPerHour)
    else if text = "!quiet" then .ok (some "🤖 Set to quiet mode (5 responses/hour)", 5)
    else if text = "!active" then .ok (some "🤖 Set to active mode (30 responses/hour)", 30)
    else if text = "!normal" then .ok (some "🤖 Set to normal mode (20 responses/hour)", 20)
    else smartCommon text author st r
  else smartCommon text author st r

/-- `trackUser(author, text)` (the text argument is unused by the body). -/
def trackUser (author : String) (now : ℤ) (st : State) : State :=
  match histGet st.chatHistory author with
  | none =>
    { st with chatHistory :=
        histSet st.chatHistory author ⟨1, now, true⟩ }
  | some u =>
    { st with chatHistory :=
        histSet st.chatHistory author ⟨u.messageCount + 1, u.firstSeen, false⟩ }

/-- `resetHourlyCounter()`. -/
def resetHourlyCounter (now : ℤ) (st : State) : State :=
  if now - st.hourlyReset > 3600000 then
    { st with responseCount := 0, hourlyReset := now }
  else st

/-- `processMessage(message)`.  `delayR` is the `Math.random()` draw of the
human-like send delay.  Result: the new state, the scheduled send (reply
text and delay in milliseconds) if any, and whether the call threw. -/
def processMessage (cfg : Cfg) (m : ChatMsg) (now : ℤ) (st : State)
    (r : Rand) (delayR : ℚ) : State × Option (String × ℚ) × Bool :=
  let textLower := m.text.toLower
  if m.author = cfg.botName then (st, none, false)
  else
    let st2 := resetHourlyCounter now (trackUser m.author now st)
    if st2.responseCount ≥ st2.maxResponsesPerHour then (st2, none, false)
    else if now - st2.lastResponseTime < 5000 then (st2, none, false)
    else
      match generateSmartResponse cfg textLower m.author st2 r with
      | .error _ => (st2, none, true)
      | .ok (none, cap) => ({ st2 with maxResponsesPerHour := cap }, none, false)
      | .ok (some resp, cap) =>
        ({ st2 with maxResponsesPerHour := cap, lastResponseTime := now,
                    responseCount := st2.responseCount + 1 },
         some (resp, delayR * 4000 + 2000), false)

/-- `cleanup()`. -/
def cleanup (st : State) : State :=
  { st with videoId := none, liveChatId := none, nextPageToken := none,
            isRunning := false, responseCount := 0, chatHistory := [] }

/-- `checkIfStreaming()`.  The search-API outcome is `api`: an error
message, or `none` for an empty item list, or the video id and title of the
single returned item.  Returns the boolean result and the new state. -/
def checkIfStreaming (api : Except String (Option (String × String)))
    (st : State) : Bool × State :=
  match api with
  | .error _ => (false, st)
  | .ok none =>
    if st.videoId.isSome then (false, cleanup st) else (false, st)
  | .ok (some (vid, _title)) =>
    if some vid ≠ st.videoId then
      (true, { st with videoId := some vid, responseCount := 0, chatHistory := [] })
    else (st.videoId.isSome, st)

/-- Default draws used when the per-message environment list runs short
(all probabilistic branches fail, the pick index is out of range). -/
def defaultRand : Rand × ℚ := (⟨1, 1, 1, 1, 1, 1⟩, 1)

/-- The message loop of `pollMessages`: processes the page items in order.
Returns the state after the loop, the scheduled sends in order, and whether
a message handler threw (mutations made before the throw persist, later
items are not processed). -/
def processAll (cfg : Cfg) (now : ℤ) :
    List ChatMsg → List (Rand × ℚ) → State → State × List (String × ℚ) × Bool
  | [], _, st => (st, [], false)
  | m :: ms, rs, st =>
    let re := match rs with
      | [] => (defaultRand, ([] : List (Rand × ℚ)))
      | x :: xs => (x, xs)
    let pm := processMessage cfg m now st re.1.1 re.1.2
    if pm.2.2 then (pm.1, pm.2.1.toList, true)
    else
      let pa := processAll cfg now ms re.2 pm.1
      (pa.1, pm.2.1.toList ++ pa.2.1, pa.2.2)

/-- One iteration of `pollMessages()`.  `page` is the outcome of the
`liveChatMessages.list` call (which is sent with `pageToken =
st.nextPageToken`), `rs` the per-message random draws. -/
def pollMessages (cfg : Cfg) (now : ℤ) (page : Except String PollPage)
    (rs : List (Rand × ℚ)) (st : State) :
    PollStepResult × State × List (String × ℚ) :=
  if ¬st.isRunning ∨ st.liveChatId = none then (.notPolling, st, [])
  else
    match page with
    | .error e =>
      if strIncludes e "disabled" || strIncludes e "not found" then
        (.ended, cleanup st, [])
      else (.retry 10000, st, [])
    | .ok p =>
      let pa := processAll cfg now p.items rs st
      if pa.2.2 then
        -- a TypeError from a message handler reaches the same catch; its
        -- message contains neither "disabled" nor "not found"
        (.retry 10000, pa.1, pa.2.1)
      else
        (.nextPoll (max (jsOrNat p.pollingIntervalMillis 5000) 2000),
         { pa.1 with nextPageToken := p.nextPageToken }, pa.2.1)

end Smart

/-! ## The quota-optimized variant (`src/unnamed/part_000`) -/

/-- Whitespace skipping at the head of a character list (JavaScript
`parseInt` ignores leading whitespace). -/
def skipWs : List Char → List Char
  | [] => []
  | c :: t => if c = ' ' ∨ c = '\t' ∨ c = '\n' ∨ c = '\r' then skipWs t else c :: t

/-- Value of one digit character in the given base (10 or 16), if valid. -/
def charVal (base : ℕ) (c : Char) : Option ℕ :=
  if '0' ≤ c ∧ c ≤ '9' then some (c.toNat - 48)
  else if base = 16 ∧ 'a' ≤ c ∧ c ≤ 'f' then some (c.toNat - 87)
  else if base = 16 ∧ 'A' ≤ c ∧ c ≤ 'F' then some (c.toNat - 55)
  else none

/-- Accumulate the longest valid digit run at the head of the list. -/
def parseDigitsAux (base : ℕ) : List Char → ℕ → ℕ
  | [], acc => acc
  | c :: t, acc =>
    match charVal base c with
    | some d => parseDigitsAux base t (acc * base + d)
    | none => acc

/-- JavaScript `parseInt(s)` with no radix argument: skip leading
whitespace, read an optional sign, auto-detect a `0x`/`0X` hex prefix, take
the longest digit run; `none` models `NaN` (no digit found). -/
def jsParseInt (s : String) : Option ℤ :=
  let cs0 := skipWs s.toList
  let sgn : ℤ × List Char :=
    match cs0 with
    | '-' :: t => (-1, t)
    | '+' :: t => (1, t)
    | t => (1, t)
  let body : ℕ × List Char :=
    match sgn.2 with
    | '0' :: 'x' :: t => (16, t)
    | '0' :: 'X' :: t => (16, t)
    | t => (10, t)
  match body.2 with
  | [] => none
  | c :: _ =>
    if (charVal body.1 c).isSome then
      some (sgn.1 * (parseDigitsAux body.1 body.2 0 : ℤ))
    else none

/-- JavaScript `x || d` for an optional integer (`NaN` and `0` are falsy). -/
def jsOrInt (o : Option ℤ) (d : ℤ) : ℤ :=
  match o with
  | some v => if v = 0 then d else v
  | none => d

/-- `parseInt(process.env.STREAM_START_HOUR) || 18` from the quota-variant
constructor (`env` is the raw environment value, absent = `none`). -/
def streamStartHour (env : Option String) : ℤ :=
  jsOrInt (env.bind jsParseInt) 18

/-- `parseInt(process.env.STREAM_END_HOUR) || 23` from the quota-variant
constructor. -/
def streamEndHour (env : Option String) : ℤ :=
  jsOrInt (env.bind jsParseInt) 23

namespace Quota

/-- Configuration fields of the quota-optimized variant that the embedded
methods read. -/
structure Cfg where
  botName : String
  ownerUsername : String
  startHour : ℤ
  endHour : ℤ
deriving DecidableEq, Repr

/-- Mutable state of the quota-optimized bot object. -/
structure State where
  videoId : Option String
  liveChatId : Option String
  nextPageToken : Option String
  isRunning : Bool
  lastResponseTime : ℤ
  dailyQuotaUsed : ℕ
  quotaResetTime : ℤ
deriving DecidableEq, Repr

/-- `getNextQuotaReset()` — the upcoming local midnight.  Local wall-clock
days are modelled as aligned 86,400,000 ms blocks of the integer
timeline. -/
def getNextQuotaReset (now : ℤ) : ℤ :=
  86400000 * (now / 86400000 + 1)

/-- State set up by the constructor at time `t0`. -/
def initState (t0 : ℤ) : State :=
  { videoId := none, liveChatId := none, nextPageToken := none
    isRunning := false, lastResponseTime := 0
    dailyQuotaUsed := 0, quotaResetTime := getNextQuotaReset t0 }

/-- `isStreamingTime()` given the current local hour. -/
def isStreamingTime (cfg : Cfg) (hour : ℤ) : Bool :=
  if cfg.startHour ≤ cfg.endHour then
    decide (cfg.startHour ≤ hour ∧ hour ≤ cfg.endHour)
  else
    decide (hour ≥ cfg.startHour ∨ hour ≤ cfg.endHour)

/-- The daily-reset step at the head of `canMakeApiCall`. -/
def maybeResetQuota (now : ℤ) (st : State) : State :=
  if now ≥ st.quotaResetTime then
    { st with dailyQuotaUsed := 0, quotaResetTime := getNextQuotaReset now }
  else st

/-- `canMakeApiCall(cost)`: performs the daily reset, then allows the call
iff the accumulated counter plus the cost stays within 9500 (the 10,000
daily quota minus the 500-unit buffer the code keeps). -/
def canMakeApiCall (cost : ℕ) (now : ℤ) (st : State) : Bool × State :=
  let st1 := maybeResetQuota now st
  (decide (st1.dailyQuotaUsed + cost ≤ 9500), st1)

/-- `trackQuotaUsage(cost)`. -/
def trackQuotaUsage (cost : ℕ) (st : State) : State :=
  { st with dailyQuotaUsed := st.dailyQuotaUsed + cost }

/-- `cleanup()`. -/
def cleanup (st : State) : State :=
  { st with videoId := none, liveChatId := none, nextPageToken := none,
            isRunning := false }

/-- The response phrase lists from the quota-variant constructor. -/
def greetings : List String :=
  ["Hey there! Welcome to the stream! 🎮",
   "What\x27s up, gamer! Ready for some epic gameplay?",
   "Welcome to the party! This is gonna be awesome! 🔥",
   "Hey! Great to see you here! Let\x27s have some fun!",
   "Welcome aboard! Hope you enjoy the stream! 🚀"]

/-- `this.responses.reactions.amazing`. -/
def amazingReplies : List String :=
  ["That was incredible! 🔥",
   "No way! How did you do that?!",
   "AMAZING play!",
   "Absolutely insane! 🤯",
   "Pro gamer move right there!"]

/-- `this.responses.reactions.fail`. -/
def failReplies : List String :=
  ["Ouch! That hurt to watch 😅",
   "We\x27ve all been there!",
   "Better luck next time!",
   "F in the chat",
   "Don\x27t worry, you got this next time!"]

/-- `this.responses.reactions.clutch`. -/
def clutchReplies : List String :=
  ["CLUTCH! 🔥",
   "That was so close!",
   "Heart attack moment right there!",
   "How did you pull that off?!",
   "Insane clutch play!"]

/-- The inline `randomEngagements` list of `generateResponse`. -/
def randomEngagements : List String :=
  ["This stream is so good! 🔥",
   "Great gameplay! 🎮",
   "Love the energy in chat! ❤️"]

/-- The `Math.random()` draws `generateResponse` may consume. -/
structure Rand where
  rAmbient : ℚ
  rPick : ℚ
deriving DecidableEq, Repr

/-- Everything of `generateResponse` after the owner-only admin block. -/
def quotaCommon (cfg : Cfg) (text : String) (r : Rand) : Option String :=
  if strIncludes text cfg.botName.toLower || strIncludes text "hello bot" ||
      strIncludes text "hi bot" then
    some (getRandomResponse greetings r.rPick)
  else if strIncludes text "amazing play" || strIncludes text "insane play" ||
      strIncludes text "incredible play" then
    some (getRandomResponse amazingReplies r.rPick)
  else if strIncludes text "epic fail" || strIncludes text "big fail" then
    some (getRandomResponse failReplies r.rPick)
  else if strIncludes text "clutch play" || strIncludes text "clutch win" then
    some (getRandomResponse clutchReplies r.rPick)
  else if strIncludes text "bot" &&
      (strIncludes text "are you" || strIncludes text "real") then
    some "Yep, I\x27m a bot! 🤖 Here to enjoy the stream with everyone!"
  else if decide (r.rAmbient < 5/1000) then
    some (getRandomResponse randomEngagements r.rPick)
  else none

/-- `generateResponse(text, author)` of the quota-optimized variant.  The
`!quota` reply renders `quotaResetTime` with `toLocaleTimeString`; the
rendering is modelled by `toString` of the model timestamp. -/
def generateResponse (cfg : Cfg) (text author : String) (st : State)
    (r : Rand) : Option String :=
  if author = cfg.ownerUsername then
    if text = "!status" then
      some ("🤖 Bot Status: Active | Quota: " ++ toString st.dailyQuotaUsed ++
        "/10000 | Stream: " ++ jsOrStr st.videoId "none")
    else if text = "!quota" then
      some ("📊 Quota Used: " ++ toString st.dailyQuotaUsed ++
        "/10000 units | Resets: " ++ toString st.quotaResetTime)
    else if text = "!ping" then some "🏓 Pong!"
    else if text.startsWith "!say " then some (text.drop 5)
    else quotaCommon cfg text r
  else quotaCommon cfg text r

/-- `processMessage(message)` of the quota-optimized variant. -/
def processMessage (cfg : Cfg) (m : ChatMsg) (now : ℤ) (st : State)
    (r : Rand) (delayR : ℚ) : State × Option (String × ℚ) :=
  let textLower := m.text.toLower
  if m.author = cfg.botName then (st, none)
  else if now - st.lastResponseTime < 15000 then (st, none)
  else
    match generateResponse cfg textLower m.author st r with
    | none => (st, none)
    | some resp =>
      ({ st with lastResponseTime := now }, some (resp, delayR * 6000 + 2000))

/-- Default draws used when the per-message environment list runs short. -/
def defaultRand : Rand × ℚ := (⟨1, 1⟩, 1)

/-- The message loop of the quota-variant `pollMessages`. -/
def processAll (cfg : Cfg) (now : ℤ) :
    List ChatMsg → List (Rand × ℚ) → State → State × List (String × ℚ)
  | [], _, st => (st, [])
  | m :: ms, rs, st =>
    let re := match rs with
      | [] => (defaultRand, ([] : List (Rand × ℚ)))
      | x :: xs => (x, xs)
    let pm := processMessage cfg m now st re.1.1 re.1.2
    let pa := processAll cfg now ms re.2 pm.1
    (pa.1, pm.2.toList ++ pa.2)

/-- `checkIfStreaming()` of the quota-optimized variant (search cost: 100
units).  `hour` is the current local hour for the streaming-window check. -/
def checkIfStreaming (cfg : Cfg) (now hour : ℤ)
    (api : Except String (Option (String × String))) (st : State) :
    Bool × State :=
  let gate := canMakeApiCall 100 now st
  if !gate.1 then (false, gate.2)
  else if !isStreamingTime cfg hour then (false, gate.2)
  else
    match api with
    | .error _ => (false, gate.2)
    | .ok res =>
      let st2 := trackQuotaUsage 100 gate.2
      match res with
      | none =>
        if st2.videoId.isSome then (false, cleanup st2) else (false, st2)
      | some (vid, _title) =>
        if some vid ≠ st2.videoId then (true, { st2 with videoId := some vid })
        else (st2.videoId.isSome, st2)

/-- `getLiveChatId()` (cost: 1 unit).  `api` is the `videos.list` outcome:
error, or `none` for an empty item list, or the item's optional
`activeLiveChatId`. -/
def getLiveChatId (now : ℤ) (api : Except String (Option (Option String)))
    (st : State) : Bool × State :=
  let gate := canMakeApiCall 1 now st
  if !gate.1 then (false, gate.2)
  else
    match api with
    | .error _ => (false, gate.2)
    | .ok res =>
      let st2 := trackQuotaUsage 1 gate.2
      match res with
      | none => (false, st2)
      | some none => (false, st2)
      | some (some cid) => (true, { st2 with liveChatId := some cid })

/-- One iteration of the quota-variant `pollMessages()` (cost: 5 units). -/
def pollMessages (cfg : Cfg) (now : ℤ) (page : Except String PollPage)
    (rs : List (Rand × ℚ)) (st : State) :
    PollStepResult × State × List (String × ℚ) :=
  if ¬st.isRunning ∨ st.liveChatId = none then (.notPolling, st, [])
  else
    let gate := canMakeApiCall 5 now st
    if !gate.1 then (.quotaStop, { gate.2 with isRunning := false }, [])
    else
      match page with
      | .error e =>
        if strIncludes e "disabled" || strIncludes e "not found" then
          (.ended, cleanup gate.2, [])
        else (.retry 15000, gate.2, [])
      | .ok p =>
        let pa := processAll cfg now p.items rs (trackQuotaUsage 5 gate.2)
        (.nextPoll (max (jsOrNat p.pollingIntervalMillis 10000) 8000),
         { pa.1 with nextPageToken := p.nextPageToken }, pa.2)

/-- Outcome of a `sendMessage` call (cost: 50 units). -/
inductive SendOutcome where
  | skippedQuota : SendOutcome
  | skippedNoAuth : SendOutcome
  | sent : SendOutcome
  | sendFailed : SendOutcome
deriving DecidableEq, Repr

/-- `sendMessage(message)`: the quota gate runs first, then the OAuth-token
check; the cost is tracked only when the insert call succeeds. -/
def sendMessage (hasOAuth apiOk : Bool) (now : ℤ) (st : State) :
    SendOutcome × State :=
  let gate := canMakeApiCall 50 now st
  if !gate.1 then (.skippedQuota, gate.2)
  else if !hasOAuth then (.skippedNoAuth, gate.2)
  else if apiOk then (.sent, trackQuotaUsage 50 gate.2)
  else (.sendFailed, gate.2)

/-- One outbound-capable operation of the quota-optimized variant, with the
environment inputs it reads. -/
inductive Op where
  | opCheckStream (now hour : ℤ) (api : Except String (Option (String × String))) : Op
  | opGetChatId (now : ℤ) (api : Except String (Option (Option String))) : Op
  | opPoll (now : ℤ) (page : Except String PollPage) (rs : List (Rand × ℚ)) : Op
  | opSend (now : ℤ) (hasOAuth apiOk : Bool) : Op

/-- State transition of one operation (outputs projected away). -/
def runOp (cfg : Cfg) (st : State) : Op → State
  | .opCheckStream now hour api => (checkIfStreaming cfg now hour api st).2
  | .opGetChatId now api => (getLiveChatId now api st).2
  | .opPoll now page rs => (pollMessages cfg now page rs st).2.1
  | .opSend now hasOAuth apiOk => (sendMessage hasOAuth apiOk now st).2

/-- State after a whole sequence of operations. -/
def runOps (cfg : Cfg) (ops : List Op) (st : State) : State :=
  ops.foldl (runOp cfg) st

end Quota


/-! ## The response-engine priority order as the specification words it

Section 4.4 of the specification describes the smart response engine as an
ordered rule list: owner-only admin commands, then greeting detection for
first-time authors, then probabilistic keyword categories (each with its
own trigger probability), then fixed-answer FAQ matches, then
low-probability ambient engagement, at most one reply per message.  The
definitions below state that contract literally; the refinement theorem for
C8 proves the code equal to it. -/

namespace SpecOrder

/-- Outcome of one priority rule: a thrown error, no match, or a reply
paired with the value the response cap has after the rule. -/
def RuleResult : Type := Except Unit (Option (String × ℕ))

/-- First-match semantics over the ordered rule list: the first rule that
throws or yields a reply decides; later rules are never consulted. -/
def firstMatch : List RuleResult → RuleResult
  | [] => .ok none
  | r :: rest =>
    match r with
    | .error e => .error e
    | .ok (some x) => .ok (some x)
    | .ok none => firstMatch rest

/-- Rule 1 — owner-only admin commands: status, ping, say-echo and the
three mode switches, honored only for the owner username. -/
def ruleAdmin (cfg : Smart.Cfg) (text author : String) (st : Smart.State) :
    RuleResult :=
  .ok (if author = cfg.ownerUsername then
    if text = "!status" then some (Smart.statusReply st, st.maxResponsesPerHour)
    else if text = "!ping" then some ("🏓 Pong!", st.maxResponsesPerHour)
    else if text.startsWith "!say " then some (text.drop 5, st.maxResponsesPerHour)
    else if text = "!quiet" then some ("🤖 Set to quiet mode (5 responses/hour)", 5)
    else if text = "!active" then some ("🤖 Set to active mode (30 responses/hour)", 30)
    else if text = "!normal" then some ("🤖 Set to normal mode (20 responses/hour)", 20)
    else none
  else none)

/-- Rule 2 — greeting detection for first-time authors (uniform pick from
the greeting phrase set; inherits the unguarded record access). -/
def ruleGreeting (text author : String) (st : Smart.State) (r : Smart.Rand) :
    RuleResult :=
  if Smart.containsGreeting text then
    match Smart.histGet st.chatHistory author with
    | none => .error ()
    | some u =>
      if u.isNew then
        .ok (some (getRandomResponse Smart.greetings r.rPick, st.maxResponsesPerHour))
      else .ok none
  else .ok none

/-- Rule 3 — probabilistic keyword categories, each with its own trigger
probability (30% amazing, 20% fail, 40% clutch, 25% funny), reply picked
uniformly from the matched category. -/
def ruleReactions (text : String) (st : Smart.State) (r : Smart.Rand) :
    RuleResult :=
  .ok (if (strIncludes text "amazing" || strIncludes text "incredible" ||
      strIncludes text "insane") && decide (r.rAmazing < 3/10) then
    some (getRandomResponse Smart.amazingReplies r.rPick, st.maxResponsesPerHour)
  else if (strIncludes text "fail" || strIncludes text "died" ||
      strIncludes text "rip") && decide (r.rFail < 2/10) then
    some (getRandomResponse Smart.failReplies r.rPick, st.maxResponsesPerHour)
  else if (strIncludes text "clutch" || strIncludes text "close call") &&
      decide (r.rClutch < 4/10) then
    some (getRandomResponse Smart.clutchReplies r.rPick, st.maxResponsesPerHour)
  else if (strIncludes text "funny" || strIncludes text "lol" ||
      strIncludes text "haha") && decide (r.rFunny < 25/100) then
    some (getRandomResponse Smart.funnyReplies r.rPick, st.maxResponsesPerHour)
  else none)

/-- Rule 4 — fixed-answer FAQ matches. -/
def ruleFaq (text : String) (st : Smart.State) : RuleResult :=
  .ok (if strIncludes text "how are you" then
    some ("I\x27m doing great! Thanks for asking! How are you enjoying the stream? 😊",
      st.maxResponsesPerHour)
  else if strIncludes text "what game" then
    some ("This game looks amazing! I love watching these streams! 🎮",
      st.maxResponsesPerHour)
  else if strIncludes text "bot" &&
      (strIncludes text "are you" || strIncludes text "real") then
    some ("Yep, I\x27m a bot! 🤖 But I\x27m here to hang out and enjoy the stream with everyone!",
      st.maxResponsesPerHour)
  else none)

/-- Rule 5 — low-probability (5%) ambient engagement. -/
def ruleAmbient (st : Smart.State) (r : Smart.Rand) : RuleResult :=
  .ok (if decide (r.rAmbient < 5/100) then
    some (getRandomResponse Smart.randomEngagements r.rPick, st.maxResponsesPerHour)
  else none)

/-- The response engine as the specification words it: the five rules
evaluated in priority order, at most one reply per message. -/
def generateSpec (cfg : Smart.Cfg) (text author : String) (st : Smart.State)
    (r : Smart.Rand) : Except Unit (Option String × ℕ) :=
  match firstMatch [ruleAdmin cfg text author st, ruleGreeting text author st r,
      ruleReactions text st r, ruleFaq text st, ruleAmbient st r] with
  | .error e => .error e
  | .ok none => .ok (none, st.maxResponsesPerHour)
  | .ok (some (s, cap)) => .ok (some s, cap)

end SpecOrder

theorem getRandomResponse_eq_or_mem (l : List String) (r : ℚ) :
    getRandomResponse l r = "" ∨ getRandomResponse l r ∈ l := by
  unfold getRandomResponse
  rcases h : l[pickIdx l.length r]? with _ | s
  · left
    simp [List.getD, h]
  · right
    have hm := List.getElem?_mem h
    simpa [List.getD, h] using hm

namespace Smart

theorem trackUser_responseCount (a : String) (now : ℤ) (st : State) :
    (trackUser a now st).responseCount = st.responseCount := by
  unfold trackUser; cases histGet st.chatHistory a <;> rfl

theorem trackUser_maxResponses (a : String) (now : ℤ) (st : State) :
    (trackUser a now st).maxResponsesPerHour = st.maxResponsesPerHour := by
  unfold trackUser; cases histGet st.chatHistory a <;> rfl

theorem trackUser_lastResponseTime (a : String) (now : ℤ) (st : State) :
    (trackUser a now st).lastResponseTime = st.lastResponseTime := by
  unfold trackUser; cases histGet st.chatHistory a <;> rfl

theorem trackUser_hourlyReset (a : String) (now : ℤ) (st : State) :
    (trackUser a now st).hourlyReset = st.hourlyReset := by
  unfold trackUser; cases histGet st.chatHistory a <;> rfl

theorem resetHourly_of_within (now : ℤ) (st : State)
    (h : now - st.hourlyReset ≤ 3600000) : resetHourlyCounter now st = st := by
  unfold resetHourlyCounter
  rw [if_neg (by omega)]

end Smart

/-! ## C10 — `parseInt(env) || default` swallows 0 and unparsable values -/

/-- C10: in the quota-optimized variant a streaming-hour bound of 0 cannot
be configured: `parseInt(env) || default` maps the value `"0"` (and every
unparsable value, `NaN`) of `STREAM_START_HOUR` / `STREAM_END_HOUR` to the
defaults 18 and 23, and the resulting bound is never 0. -/
theorem c10_zero_hour_not_configurable :
    streamStartHour (some "0") = 18 ∧ streamEndHour (some "0") = 23 ∧
    (∀ s, jsParseInt s = none →
      streamStartHour (some s) = 18 ∧ streamEndHour (some s) = 23) ∧
    (∀ env, streamStartHour env ≠ 0 ∧ streamEndHour env ≠ 0) := by
  refine ⟨by decide, by decide, ?_, ?_⟩
  · intro s h
    constructor <;> simp [streamStartHour, streamEndHour, h, jsOrInt]
  · intro env
    rcases env with _ | s
    · exact ⟨by decide, by decide⟩
    · rcases h : jsParseInt s with _ | v
      · constructor <;> simp [streamStartHour, streamEndHour, h, jsOrInt]
      · constructor <;>
          simp [streamStartHour, streamEndHour, h, jsOrInt] <;>
          split <;> simp_all

/-- Witness for C10: the unparsable value `"abc"` and the absent value both
fall back to the defaults. -/
theorem c10_zero_hour_not_configurable_witness :
    (jsParseInt "abc" = none ∧ streamStartHour (some "abc") = 18 ∧
      streamEndHour (some "abc") = 23) ∧
    (streamStartHour none ≠ 0 ∧ streamEndHour none ≠ 0) :=
  ⟨⟨by decide, c10_zero_hour_not_configurable.2.2.1 "abc" (by decide)⟩,
   c10_zero_hour_not_configurable.2.2.2 none⟩

/-! ## C6 — the locator adopts a new video id and resets counters exactly once -/

/-- C6: when a locator tick returns a live video id different from the
tracked one, `checkIfStreaming` adopts it and resets the response count and
the per-user history; a subsequent tick returning the same id leaves the
state completely unchanged (so the reset happens exactly once). -/
theorem c6_locator_adopts_and_resets_once :
    (∀ (st : Smart.State) (v t : String), some v ≠ st.videoId →
        Smart.checkIfStreaming (.ok (some (v, t))) st =
          (true, { st with videoId := some v, responseCount := 0,
                           chatHistory := [] })) ∧
    (∀ (st : Smart.State) (v t : String), st.videoId = some v →
        Smart.checkIfStreaming (.ok (some (v, t))) st = (true, st)) := by
  constructor
  · intro st v t h
    show (if some v ≠ st.videoId then _ else _) = _
    rw [if_pos h]
  · intro st v t h
    show (if some v ≠ st.videoId then _ else _) = _
    rw [if_neg (by simp [h])]
    simp [h]

/-- Witness for C6: from a fresh state the id `"vidA"` is adopted with the
counters reset, and a second tick with the same id changes nothing. -/
theorem c6_locator_adopts_and_resets_once_witness :
    Smart.checkIfStreaming (.ok (some ("vidA", "T"))) (Smart.initState 5) =
      (true,
        { Smart.initState 5 with videoId := some "vidA", responseCount := 0, chatHistory := [] }) ∧
    Smart.checkIfStreaming (.ok (some ("vidA", "T2")))
        { Smart.initState 5 with videoId := some "vidA" } =
      (true, { Smart.initState 5 with videoId := some "vidA" }) :=
  ⟨c6_locator_adopts_and_resets_once.1 (Smart.initState 5) "vidA" "T" (by decide),
   c6_locator_adopts_and_resets_once.2
     { Smart.initState 5 with videoId := some "vidA" } "vidA" "T2" rfl⟩

/-! ## C7 — poll errors: teardown on disabled/not-found, retry otherwise -/

/-- C2: while the hourly window has not elapsed, a message that arrives
with the hourly response count at (or past) the configured maximum, or
within the 5-second minimum gap since the last response, produces no reply
and schedules no send timer; the counters are untouched. -/
theorem c2_rate_ceiling_blocks_send (cfg : Smart.Cfg) (m : ChatMsg)
    (now : ℤ) (st : Smart.State) (r : Smart.Rand) (d : ℚ)
    (hwin : now - st.hourlyReset ≤ 3600000)
    (hblock : st.maxResponsesPerHour ≤ st.responseCount ∨
      now - st.lastResponseTime < 5000) :
    ∃ st', Smart.processMessage cfg m now st r d = (st', none, false) ∧
      st'.responseCount = st.responseCount ∧
      st'.lastResponseTime = st.lastResponseTime ∧
      st'.maxResponsesPerHour = st.maxResponsesPerHour := by
  unfold Smart.processMessage
  by_cases hb : m.author = cfg.botName
  · rw [if_pos hb]
    exact ⟨st, rfl, rfl, rfl, rfl⟩
  · rw [if_neg hb]
    have hreset : Smart.resetHourlyCounter now (Smart.trackUser m.author now st) =
        Smart.trackUser m.author now st :=
      Smart.resetHourly_of_within now _
        (by rw [Smart.trackUser_hourlyReset]; exact hwin)
    rw [hreset]
    rcases hblock with hcap | hgap
    · rw [if_pos (by rw [Smart.trackUser_responseCount, Smart.trackUser_maxResponses]; exact hcap)]
      exact ⟨_, rfl, Smart.trackUser_responseCount .., Smart.trackUser_lastResponseTime ..,
        Smart.trackUser_maxResponses ..⟩
    · by_cases hcap : (Smart.trackUser m.author now st).responseCount ≥
          (Smart.trackUser m.author now st).maxResponsesPerHour
      · rw [if_pos hcap]
        exact ⟨_, rfl, Smart.trackUser_responseCount .., Smart.trackUser_lastResponseTime ..,
          Smart.trackUser_maxResponses ..⟩
      · rw [if_neg hcap,
          if_pos (by rw [Smart.trackUser_lastResponseTime]; exact hgap)]
        exact ⟨_, rfl, Smart.trackUser_responseCount .., Smart.trackUser_lastResponseTime ..,
          Smart.trackUser_maxResponses ..⟩

/-- Witness for C2: with the count at the cap of 20, a `hello` message gets
no reply and no timer. -/
theorem c2_rate_ceiling_blocks_send_witness :
    ∃ st', Smart.processMessage ⟨"GameBuddy", ""⟩ ⟨"alice", "hello"⟩ 7
        { Smart.initState 0 with responseCount := 20 } ⟨0, 0, 0, 0, 0, 0⟩ 0 =
        (st', none, false) ∧
      st'.responseCount = ({ Smart.initState 0 with responseCount := 20 } : Smart.State).responseCount ∧
      st'.lastResponseTime = ({ Smart.initState 0 with responseCount := 20 } : Smart.State).lastResponseTime ∧
      st'.maxResponsesPerHour = ({ Smart.initState 0 with responseCount := 20 } : Smart.State).maxResponsesPerHour :=
  c2_rate_ceiling_blocks_send ⟨"GameBuddy", ""⟩ ⟨"alice", "hello"⟩ 7
    { Smart.initState 0 with responseCount := 20 } ⟨0, 0, 0, 0, 0, 0⟩ 0
    (by decide) (Or.inl (by decide))

/-! ## C3 / C4 — the quota governor -/

namespace Quota

theorem maybeReset_le (now : ℤ) (st : State) (h : st.dailyQuotaUsed ≤ 9500) :
    (maybeResetQuota now st).dailyQuotaUsed ≤ 9500 := by
  unfold maybeResetQuota
  split
  · exact Nat.zero_le _
  · exact h

theorem canMake_bound (cost : ℕ) (now : ℤ) (st : State)
    (h : (canMakeApiCall cost now st).1 = true) :
    (canMakeApiCall cost now st).2.dailyQuotaUsed + cost ≤ 9500 := by
  unfold canMakeApiCall at h ⊢
  simpa using h

theorem canMake_state_le (cost : ℕ) (now : ℤ) (st : State)
    (h : st.dailyQuotaUsed ≤ 9500) :
    (canMakeApiCall cost now st).2.dailyQuotaUsed ≤ 9500 := by
  unfold canMakeApiCall
  exact maybeReset_le now st h

theorem processMessage_quota (cfg : Cfg) (m : ChatMsg) (now : ℤ)
    (st : State) (r : Rand) (d : ℚ) :
    (processMessage cfg m now st r d).1.dailyQuotaUsed = st.dailyQuotaUsed := by
  simp only [processMessage]
  split_ifs
  · rfl
  · rfl
  · split <;> rfl

theorem processAll_quota (cfg : Cfg) (now : ℤ) (ms : List ChatMsg) :
    ∀ (rs : List (Rand × ℚ)) (st : State),
      (processAll cfg now ms rs st).1.dailyQuotaUsed = st.dailyQuotaUsed := by
  induction ms with
  | nil => intro rs st; rfl
  | cons m t ih =>
    intro rs st
    simp only [processAll]
    rw [ih]
    exact processMessage_quota ..

theorem runOp_le (cfg : Cfg) (st : State) (op : Op)
    (h : st.dailyQuotaUsed ≤ 9500) :
    (runOp cfg st op).dailyQuotaUsed ≤ 9500 := by
  cases op with
  | opCheckStream now hour api =>
    have hle := canMake_state_le 100 now st h
    have hb := canMake_bound 100 now st
    rcases api with e | res
    · simp only [runOp, checkIfStreaming]
      split_ifs <;> exact hle
    · rcases res with _ | ⟨vid, title⟩
      · simp only [runOp, checkIfStreaming]
        split_ifs with hc1 hc2 hc3
        · exact hle
        · exact hle
        · have := hb (by simpa using hc1)
          simp only [cleanup, trackQuotaUsage]
          omega
        · have := hb (by simpa using hc1)
          simp only [trackQuotaUsage]
          omega
      · simp only [runOp, checkIfStreaming]
        split_ifs with hc1 hc2 hc3
        · exact hle
        · exact hle
        all_goals
          have := hb (by simpa using hc1)
        all_goals
          simp only [trackQuotaUsage]
          omega
  | opGetChatId now api =>
    have hle := canMake_state_le 1 now st h
    have hb := canMake_bound 1 now st
    rcases api with e | res
    · simp only [runOp, getLiveChatId]
      split_ifs <;> exact hle
    · rcases res with _ | cid
      · simp only [runOp, getLiveChatId]
        split_ifs with hc1
        · exact hle
        · have := hb (by simpa using hc1)
          simp only [trackQuotaUsage]
          omega
      · rcases cid with _ | c <;>
          · simp only [runOp, getLiveChatId]
            split_ifs with hc1
            · exact hle
            · have := hb (by simpa using hc1)
              simp only [trackQuotaUsage]
              omega
  | opPoll now page rs =>
    have hle := canMake_state_le 5 now st h
    have hb := canMake_bound 5 now st
    rcases page with e | p
    · simp only [runOp, pollMessages]
      split_ifs <;> first | exact h | exact hle
    · simp only [runOp, pollMessages]
      split_ifs with hc1 hc2
      · exact h
      · exact hle
      · have := hb (by simpa using hc2)
        simp only [processAll_quota, trackQuotaUsage]
        omega
  | opSend now hasOAuth apiOk =>
    have hle := canMake_state_le 50 now st h
    have hb := canMake_bound 50 now st
    simp only [runOp, sendMessage]
    split_ifs with hc1 hc2 hc3
    · exact hle
    · exact hle
    · have := hb (by simpa using hc1)
      simp only [trackQuotaUsage]
      omega
    · exact hle

end Quota

/-- C4: starting from the freshly constructed quota-optimized bot, the
daily quota counter stays at or below 9500 (the code's self-imposed bound:
the 10,000-unit daily ceiling minus its 500-unit buffer) after every
sequence of stream checks, chat-id fetches, message polls and sends —
every cost is gated by `canMakeApiCall` before it is incurred. -/
theorem c4_quota_never_exceeds_ceiling (cfg : Quota.Cfg) (t0 : ℤ)
    (ops : List Quota.Op) :
    (Quota.runOps cfg ops (Quota.initState t0)).dailyQuotaUsed ≤ 9500 ∧
    (Quota.runOps cfg ops (Quota.initState t0)).dailyQuotaUsed ≤ 10000 := by
  have key : ∀ (l : List Quota.Op) (st : Quota.State),
      st.dailyQuotaUsed ≤ 9500 →
      (Quota.runOps cfg l st).dailyQuotaUsed ≤ 9500 := by
    intro l
    induction l with
    | nil => intro st h; exact h
    | cons op t ih =>
      intro st h
      exact ih _ (Quota.runOp_le cfg st op h)
  have h0 := key ops (Quota.initState t0) (Nat.zero_le _)
  exact ⟨h0, le_trans h0 (by norm_num)⟩

/-- C3: the quota governor gates every outbound call: when the accumulated
counter plus the call's fixed cost would pass the gate's fixed ceiling
(9500 = the 10,000-unit daily quota minus the code's 500-unit buffer), the
call is skipped and the counter is untouched; when the gate passes and the
call is performed, exactly the fixed cost is added.  In particular a state
with the counter at 9950 skips a cost-100 stream check unchanged. -/
theorem c3_quota_gate_skips_or_charges_exactly :
    (∀ (hasOAuth apiOk : Bool) (now : ℤ) (st : Quota.State),
        now < st.quotaResetTime → 9500 < st.dailyQuotaUsed + 50 →
          Quota.sendMessage hasOAuth apiOk now st = (.skippedQuota, st)) ∧
    (∀ (now : ℤ) (st : Quota.State),
        (Quota.canMakeApiCall 50 now st).1 = true →
          Quota.sendMessage true true now st =
            (.sent, Quota.trackQuotaUsage 50 (Quota.canMakeApiCall 50 now st).2) ∧
          (Quota.trackQuotaUsage 50 (Quota.canMakeApiCall 50 now st).2).dailyQuotaUsed =
            (Quota.canMakeApiCall 50 now st).2.dailyQuotaUsed + 50) ∧
    (∀ (cfg : Quota.Cfg) (hour : ℤ) (api : Except String (Option (String × String))),
        Quota.checkIfStreaming cfg 0 hour api
            { Quota.initState 0 with dailyQuotaUsed := 9950 } =
          (false, { Quota.initState 0 with dailyQuotaUsed := 9950 })) := by
  refine ⟨?_, ?_, ?_⟩
  · intro hasOAuth apiOk now st h1 h2
    have hst : Quota.maybeResetQuota now st = st := by
      unfold Quota.maybeResetQuota
      rw [if_neg (by omega)]
    simp only [Quota.sendMessage, Quota.canMakeApiCall, hst]
    rw [if_pos (by simp; omega)]
  · intro now st hgate
    refine ⟨?_, rfl⟩
    simp only [Quota.sendMessage]
    simp [hgate]
  · intro cfg hour api
    have hgate : (Quota.canMakeApiCall 100 0
        { Quota.initState 0 with dailyQuotaUsed := 9950 }).1 = false := by decide
    have hst : (Quota.canMakeApiCall 100 0
        { Quota.initState 0 with dailyQuotaUsed := 9950 }).2 =
        { Quota.initState 0 with dailyQuotaUsed := 9950 } := by decide
    simp only [Quota.checkIfStreaming, hgate, hst]
    rw [if_pos (by decide)]

/-- Witness for C3: at counter 9400 a send is performed and charged to
9450; at counter 9950 the cost-100 stream check is skipped unchanged. -/
theorem c3_quota_gate_skips_or_charges_exactly_witness :
    (Quota.sendMessage false false 0
        { Quota.initState 0 with dailyQuotaUsed := 9480 } =
      (.skippedQuota, { Quota.initState 0 with dailyQuotaUsed := 9480 })) ∧
    (Quota.sendMessage true true 0
        { Quota.initState 0 with dailyQuotaUsed := 9400 } =
      (.sent, Quota.trackQuotaUsage 50 (Quota.canMakeApiCall 50 0
        { Quota.initState 0 with dailyQuotaUsed := 9400 }).2)) ∧
    (Quota.checkIfStreaming ⟨"GameBuddy", "", 18, 23⟩ 0 20 (.error "boom")
        { Quota.initState 0 with dailyQuotaUsed := 9950 } =
      (false, { Quota.initState 0 with dailyQuotaUsed := 9950 })) :=
  ⟨c3_quota_gate_skips_or_charges_exactly.1 false false 0
      { Quota.initState 0 with dailyQuotaUsed := 9480 } (by decide) (by decide),
   (c3_quota_gate_skips_or_charges_exactly.2.1 0
      { Quota.initState 0 with dailyQuotaUsed := 9400 } (by decide)).1,
   c3_quota_gate_skips_or_charges_exactly.2.2 ⟨"GameBuddy", "", 18, 23⟩ 20
      (.error "boom")⟩

/-! ## C9 — the greeting branch dereference is guarded by `trackUser` -/

namespace Smart

theorem histGet_histSet_self (h : List (String × UserRecord)) (a : String)
    (u : UserRecord) : histGet (histSet h a u) a = some u := by
  induction h with
  | nil => simp [histGet, histSet, List.lookup]
  | cons p t ih =>
    obtain ⟨b, v⟩ := p
    unfold histSet
    by_cases hb : b = a
    · rw [if_pos hb]
      simp [histGet, List.lookup]
    · rw [if_neg hb]
      have hbeq : (a == b) = false := beq_eq_false_iff_ne.mpr (Ne.symm hb)
      simpa [histGet, List.lookup, hbeq] using ih

theorem trackUser_mem (a : String) (now : ℤ) (st : State) :
    ∃ u, histGet (trackUser a now st).chatHistory a = some u := by
  unfold trackUser
  cases h : histGet st.chatHistory a with
  | none => exact ⟨_, histGet_histSet_self st.chatHistory a _⟩
  | some u => exact ⟨_, histGet_histSet_self st.chatHistory a _⟩

theorem resetHourly_chatHistory (now : ℤ) (st : State) :
    (resetHourlyCounter now st).chatHistory = st.chatHistory := by
  unfold resetHourlyCounter
  split <;> rfl

theorem generateSmartResponse_ne_error (cfg : Cfg) (text author : String)
    (st : State) (r : Rand) (u : UserRecord)
    (hu : histGet st.chatHistory author = some u) :
    ∃ out, generateSmartResponse cfg text author st r = .ok out := by
  simp only [generateSmartResponse, smartCommon, hu]
  split_ifs <;> exact ⟨_, rfl⟩

theorem processMessage_threw_false (cfg : Cfg) (m : ChatMsg) (now : ℤ)
    (st : State) (r : Rand) (d : ℚ) :
    (processMessage cfg m now st r d).2.2 = false := by
  simp only [processMessage]
  split_ifs
  · rfl
  · rfl
  · rfl
  · obtain ⟨u, hu⟩ := trackUser_mem m.author now st
    have hu2 : histGet
        (resetHourlyCounter now (trackUser m.author now st)).chatHistory
        m.author = some u := by
      rw [resetHourly_chatHistory]; exact hu
    obtain ⟨out, hout⟩ := generateSmartResponse_ne_error cfg
      m.text.toLower m.author _ r u hu2
    rw [hout]
    rcases out with ⟨_ | s, cap⟩ <;> rfl

end Smart

/-- C9: the greeting branch of `generateSmartResponse` reads
`chatHistory.get(author).isNew` with no null check (calling it directly on
a fresh state throws, second conjunct), yet a message flowing through
`processMessage` with an author other than the bot name never faults,
because `trackUser` inserts the author's record first (first conjunct). -/
theorem c9_greeting_deref_never_faults_via_processMessage :
    (∀ (cfg : Smart.Cfg) (m : ChatMsg) (now : ℤ) (st : Smart.State)
        (r : Smart.Rand) (d : ℚ), m.author ≠ cfg.botName →
        (Smart.processMessage cfg m now st r d).2.2 = false) ∧
    Smart.generateSmartResponse ⟨"GameBuddy", ""⟩ "hello" "alice"
      (Smart.initState 0) ⟨0, 0, 0, 0, 0, 0⟩ = .error () := by
  constructor
  · intro cfg m now st r d _
    exact Smart.processMessage_threw_false cfg m now st r d
  · rfl

/-- Witness for C9: a concrete non-bot-author message runs through
`processMessage` without the fault flag. -/
theorem c9_greeting_deref_never_faults_witness :
    (Smart.processMessage ⟨"GameBuddy", ""⟩ ⟨"alice", "hello"⟩ 3
      (Smart.initState 0) ⟨0, 0, 0, 0, 0, 0⟩ 0).2.2 = false :=
  c9_greeting_deref_never_faults_via_processMessage.1 ⟨"GameBuddy", ""⟩
    ⟨"alice", "hello"⟩ 3 (Smart.initState 0) ⟨0, 0, 0, 0, 0, 0⟩ 0 (by decide)

/-! ## C5 — continuation-token round trip -/

theorem pick_prop (P : String → Prop) (L : List String)
    (hL : ∀ x ∈ L, P x) (hE : P "") (r : ℚ) :
    P (getRandomResponse L r) := by
  rcases getRandomResponse_eq_or_mem L r with he | hm
  · rw [he]; exact hE
  · exact hL _ hm

theorem smartRest_prop (P : String → Prop) (text : String) (r : Smart.Rand)
    (s : String) (h : Smart.smartCommon.smartRest text r = some s)
    (hA : ∀ x ∈ Smart.amazingReplies, P x)
    (hF : ∀ x ∈ Smart.failReplies, P x)
    (hC : ∀ x ∈ Smart.clutchReplies, P x)
    (hFu : ∀ x ∈ Smart.funnyReplies, P x)
    (hE : ∀ x ∈ Smart.randomEngagements, P x)
    (hq1 : P "I\x27m doing great! Thanks for asking! How are you enjoying the stream? 😊")
    (hq2 : P "This game looks amazing! I love watching these streams! 🎮")
    (hq3 : P "Yep, I\x27m a bot! 🤖 But I\x27m here to hang out and enjoy the stream with everyone!")
    (hEmpty : P "") : P s := by
  simp only [Smart.smartCommon.smartRest] at h
  split_ifs at h <;>
    first
      | exact Option.noConfusion h
      | (simp only [Option.some.injEq] at h
         first
           | exact h ▸ pick_prop P _ hA hEmpty r.rPick
           | exact h ▸ pick_prop P _ hF hEmpty r.rPick
           | exact h ▸ pick_prop P _ hC hEmpty r.rPick
           | exact h ▸ pick_prop P _ hFu hEmpty r.rPick
           | exact h ▸ pick_prop P _ hE hEmpty r.rPick
           | exact h ▸ hq1
           | exact h ▸ hq2
           | exact h ▸ hq3)

theorem smartCommon_cap (text author : String) (st : Smart.State)
    (r : Smart.Rand) (out : Option String) (cap : ℕ)
    (h : Smart.smartCommon text author st r = .ok (out, cap)) :
    cap = st.maxResponsesPerHour := by
  simp only [Smart.smartCommon] at h
  split_ifs at h
  · rcases hh : Smart.histGet st.chatHistory author with _ | u
    · rw [hh] at h
      exact Except.noConfusion h
    · simp only [hh] at h
      split_ifs at h <;>
        · simp only [Except.ok.injEq, Prod.mk.injEq] at h
          exact h.2.symm
  · simp only [Except.ok.injEq, Prod.mk.injEq] at h
    exact h.2.symm

theorem smartCommon_reply_prop (P : String → Prop) (text author : String)
    (st : Smart.State) (r : Smart.Rand) (s : String) (cap : ℕ)
    (h : Smart.smartCommon text author st r = .ok (some s, cap))
    (hG : ∀ x ∈ Smart.greetings, P x)
    (hA : ∀ x ∈ Smart.amazingReplies, P x)
    (hF : ∀ x ∈ Smart.failReplies, P x)
    (hC : ∀ x ∈ Smart.clutchReplies, P x)
    (hFu : ∀ x ∈ Smart.funnyReplies, P x)
    (hE : ∀ x ∈ Smart.randomEngagements, P x)
    (hq1 : P "I\x27m doing great! Thanks for asking! How are you enjoying the stream? 😊")
    (hq2 : P "This game looks amazing! I love watching these streams! 🎮")
    (hq3 : P "Yep, I\x27m a bot! 🤖 But I\x27m here to hang out and enjoy the stream with everyone!")
    (hEmpty : P "") : P s := by
  simp only [Smart.smartCommon] at h
  split_ifs at h
  · rcases hh : Smart.histGet st.chatHistory author with _ | u
    · rw [hh] at h
      exact Except.noConfusion h
    · simp only [hh] at h
      split_ifs at h
      · simp only [Except.ok.injEq, Prod.mk.injEq, Option.some.injEq] at h
        exact h.1 ▸ pick_prop P _ hG hEmpty r.rPick
      · simp only [Except.ok.injEq, Prod.mk.injEq] at h
        exact smartRest_prop P text r s h.1 hA hF hC hFu hE hq1 hq2 hq3 hEmpty
  · simp only [Except.ok.injEq, Prod.mk.injEq] at h
    exact smartRest_prop P text r s h.1 hA hF hC hFu hE hq1 hq2 hq3 hEmpty

theorem quotaCommon_reply_prop (P : String → Prop) (cfg : Quota.Cfg)
    (text : String) (r : Quota.Rand) (s : String)
    (h : Quota.quotaCommon cfg text r = some s)
    (hG : ∀ x ∈ Quota.greetings, P x)
    (hA : ∀ x ∈ Quota.amazingReplies, P x)
    (hF : ∀ x ∈ Quota.failReplies, P x)
    (hC : ∀ x ∈ Quota.clutchReplies, P x)
    (hE : ∀ x ∈ Quota.randomEngagements, P x)
    (hBot : P "Yep, I\x27m a bot! 🤖 Here to enjoy the stream with everyone!")
    (hEmpty : P "") : P s := by
  simp only [Quota.quotaCommon] at h
  split_ifs at h <;>
    first
      | exact Option.noConfusion h
      | (simp only [Option.some.injEq] at h
         first
           | exact h ▸ pick_prop P _ hG hEmpty r.rPick
           | exact h ▸ pick_prop P _ hA hEmpty r.rPick
           | exact h ▸ pick_prop P _ hF hEmpty r.rPick
           | exact h ▸ pick_prop P _ hC hEmpty r.rPick
           | exact h ▸ pick_prop P _ hE hEmpty r.rPick
           | exact h ▸ hBot)

/-- C1: an author other than the configured owner never reaches the admin
block: the generator behaves exactly like its admin-free remainder
(`smartCommon` / `quotaCommon`), the smart edition's response cap comes
back unchanged, and the reply (when there is one) is never the ping reply
nor a status / quota / mode-switch reply (those all start with `🤖` or
`📊`); the `!say` echo can only be produced by the admin block the
non-owner never enters. -/
theorem c1_non_owner_never_admin :
    (∀ (cfg : Smart.Cfg) (text author : String) (st : Smart.State)
        (r : Smart.Rand), author ≠ cfg.ownerUsername →
        Smart.generateSmartResponse cfg text author st r =
          Smart.smartCommon text author st r) ∧
    (∀ (cfg : Smart.Cfg) (text author : String) (st : Smart.State)
        (r : Smart.Rand) (out : Option String) (cap : ℕ),
        author ≠ cfg.ownerUsername →
        Smart.generateSmartResponse cfg text author st r = .ok (out, cap) →
        cap = st.maxResponsesPerHour) ∧
    (∀ (cfg : Smart.Cfg) (text author : String) (st : Smart.State)
        (r : Smart.Rand) (s : String) (cap : ℕ),
        author ≠ cfg.ownerUsername →
        Smart.generateSmartResponse cfg text author st r = .ok (some s, cap) →
        s ≠ "🏓 Pong!" ∧ s.startsWith "🤖" = false) ∧
    (∀ (cfg : Quota.Cfg) (text author : String) (st : Quota.State)
        (r : Quota.Rand), author ≠ cfg.ownerUsername →
        Quota.generateResponse cfg text author st r =
          Quota.quotaCommon cfg text r) ∧
    (∀ (cfg : Quota.Cfg) (text author : String) (st : Quota.State)
        (r : Quota.Rand) (s : String), author ≠ cfg.ownerUsername →
        Quota.generateResponse cfg text author st r = some s →
        s ≠ "🏓 Pong!" ∧ s.startsWith "🤖" = false ∧
          s.startsWith "📊" = false) := by
  refine ⟨?_, ?_, ?_, ?_, ?_⟩
  · intro cfg text author st r h
    simp only [Smart.generateSmartResponse]
    rw [if_neg h]
  · intro cfg text author st r out cap h hres
    simp only [Smart.generateSmartResponse] at hres
    rw [if_neg h] at hres
    exact smartCommon_cap text author st r out cap hres
  · intro cfg text author st r s cap h hres
    simp only [Smart.generateSmartResponse] at hres
    rw [if_neg h] at hres
    exact smartCommon_reply_prop
      (fun x => x ≠ "🏓 Pong!" ∧ x.startsWith "🤖" = false)
      text author st r s cap hres (by decide) (by decide) (by decide)
      (by decide) (by decide) (by decide) (by decide) (by decide) (by decide)
      (by decide)
  · intro cfg text author st r h
    simp only [Quota.generateResponse]
    rw [if_neg h]
  · intro cfg text author st r s h hres
    simp only [Quota.generateResponse] at hres
    rw [if_neg h] at hres
    exact quotaCommon_reply_prop
      (fun x => x ≠ "🏓 Pong!" ∧ x.startsWith "🤖" = false ∧
        x.startsWith "📊" = false)
      cfg text r s hres (by decide) (by decide) (by decide) (by decide)
      (by decide) (by decide) (by decide)

/-- Witness for C1: the non-owner `mallory` gets the admin-free behaviour
for `!ping` in both variants, and a concrete non-owner reply (the ambient
engagement fired on `!status`) is neither the ping reply nor `🤖`-prefixed. -/
theorem c1_non_owner_never_admin_witness :
    (Smart.generateSmartResponse ⟨"GameBuddy", "owneruser"⟩ "!ping" "mallory"
        (Smart.initState 0) ⟨1, 1, 1, 1, 1, 1⟩ =
      Smart.smartCommon "!ping" "mallory" (Smart.initState 0) ⟨1, 1, 1, 1, 1, 1⟩) ∧
    ("This game looks amazing! I love watching these streams! 🎮" ≠ "🏓 Pong!" ∧
      ("This game looks amazing! I love watching these streams! 🎮").startsWith
        "🤖" = false) ∧
    (Quota.generateResponse ⟨"GameBuddy", "owneruser", 18, 23⟩ "!ping" "mallory"
        (Quota.initState 0) ⟨1, 0⟩ =
      Quota.quotaCommon ⟨"GameBuddy", "owneruser", 18, 23⟩ "!ping" ⟨1, 0⟩) :=
  ⟨c1_non_owner_never_admin.1 ⟨"GameBuddy", "owneruser"⟩ "!ping" "mallory"
      (Smart.initState 0) ⟨1, 1, 1, 1, 1, 1⟩ (by decide),
   c1_non_owner_never_admin.2.2.1 ⟨"GameBuddy", "owneruser"⟩ "what game"
      "mallory" (Smart.initState 0) ⟨1, 1, 1, 1, 1, 1⟩
      "This game looks amazing! I love watching these streams! 🎮" 20
      (by decide) (by decide),
   c1_non_owner_never_admin.2.2.2.1 ⟨"GameBuddy", "owneruser", 18, 23⟩ "!ping"
      "mallory" (Quota.initState 0) ⟨1, 0⟩ (by decide)⟩

/-! ## C8 — rule priority order and uniform phrase selection -/

theorem smartCommon_eq_specTail (text author : String) (st : Smart.State)
    (r : Smart.Rand) :
    Smart.smartCommon text author st r =
      (match SpecOrder.firstMatch [SpecOrder.ruleGreeting text author st r,
          SpecOrder.ruleReactions text st r, SpecOrder.ruleFaq text st,
          SpecOrder.ruleAmbient st r] with
        | .error e => .error e
        | .ok none => .ok (none, st.maxResponsesPerHour)
        | .ok (some (s, cap)) => .ok (some s, cap)) := by
  by_cases hg : Smart.containsGreeting text
  · rcases hh : Smart.histGet st.chatHistory author with _ | u
    · simp only [Smart.smartCommon, SpecOrder.firstMatch, SpecOrder.ruleGreeting,
        hg, hh, if_true, ite_true]
    · by_cases hn : u.isNew
      · simp only [Smart.smartCommon, SpecOrder.firstMatch, SpecOrder.ruleGreeting,
          hg, hh, hn, if_true, ite_true]
      · simp only [Smart.smartCommon, Smart.smartCommon.smartRest,
          SpecOrder.firstMatch, SpecOrder.ruleGreeting, SpecOrder.ruleReactions,
          SpecOrder.ruleFaq, SpecOrder.ruleAmbient, hg, hh, hn, if_true, ite_true,
          if_false, ite_false, Bool.false_eq_true]
        split_ifs <;> rfl
  · simp only [Smart.smartCommon, Smart.smartCommon.smartRest,
      SpecOrder.firstMatch, SpecOrder.ruleGreeting, SpecOrder.ruleReactions,
      SpecOrder.ruleFaq, SpecOrder.ruleAmbient, hg, if_false, ite_false,
      Bool.false_eq_true]
    split_ifs <;> rfl

/-- C8: the smart response engine equals the specification's ordered rule
list — admin commands, first-time greeting, probabilistic keyword
categories, FAQ, ambient engagement, first match wins, at most one reply —
and the phrase selection is uniform: for a list of `n` phrases, index `k`
is chosen exactly when the draw lands in `[k/n, (k+1)/n)`, an interval of
equal length `1/n` for every `k`. -/
theorem c8_priority_order_and_uniform_pick :
    (∀ (cfg : Smart.Cfg) (text author : String) (st : Smart.State)
        (r : Smart.Rand),
        Smart.generateSmartResponse cfg text author st r =
          SpecOrder.generateSpec cfg text author st r) ∧
    (∀ (n k : ℕ) (r : ℚ), 0 < n → 0 ≤ r → r < 1 →
        (pickIdx n r = k ↔ (k : ℚ) / n ≤ r ∧ r < ((k : ℚ) + 1) / n)) := by
  constructor
  · intro cfg text author st r
    by_cases hown : author = cfg.ownerUsername
    · simp only [Smart.generateSmartResponse, SpecOrder.generateSpec,
        SpecOrder.firstMatch, SpecOrder.ruleAdmin, hown, if_true, ite_true]
      split_ifs <;> first
        | rfl
        | exact smartCommon_eq_specTail text cfg.ownerUsername st r
    · simp only [Smart.generateSmartResponse, SpecOrder.generateSpec,
        SpecOrder.firstMatch, SpecOrder.ruleAdmin, hown, if_false, ite_false]
      exact smartCommon_eq_specTail text author st r
  · intro n k r hn h0 h1
    have hnq : (0:ℚ) < (n:ℚ) := by exact_mod_cast hn
    unfold pickIdx
    constructor
    · intro hk
      have hfl0 : (0:ℤ) ≤ ⌊r * (n:ℚ)⌋ := Int.floor_nonneg.mpr (by positivity)
      have hkz : ⌊r * (n:ℚ)⌋ = (k : ℤ) := by
        rw [← hk, Int.toNat_of_nonneg hfl0]
      obtain ⟨ha, hb⟩ := Int.floor_eq_iff.mp hkz
      constructor
      · rw [div_le_iff₀ hnq]
        exact_mod_cast ha
      · rw [lt_div_iff₀ hnq]
        push_cast at hb ⊢
        linarith
    · rintro ⟨ha, hb⟩
      have ha' : ((k:ℤ):ℚ) ≤ r * n := by
        rw [div_le_iff₀ hnq] at ha
        exact_mod_cast ha
      have hb' : r * n < (k:ℤ) + 1 := by
        rw [lt_div_iff₀ hnq] at hb
        push_cast at hb ⊢
        linarith
      rw [Int.floor_eq_iff.mpr ⟨ha', hb'⟩]
      simp

/-- Witness for C8: the refinement instantiated on a concrete FAQ message,
and the uniform-pick characterization selecting index 1 of 4 for the draw
3/10 (which lies in `[1/4, 2/4)`). -/
theorem c8_priority_order_and_uniform_pick_witness :
    (Smart.generateSmartResponse ⟨"GameBuddy", "owneruser"⟩ "what game"
        "mallory" (Smart.initState 0) ⟨1, 1, 1, 1, 1, 1⟩ =
      SpecOrder.generateSpec ⟨"GameBuddy", "owneruser"⟩ "what game" "mallory"
        (Smart.initState 0) ⟨1, 1, 1, 1, 1, 1⟩) ∧
    pickIdx 4 (3/10) = 1 :=
  ⟨c8_priority_order_and_uniform_pick.1 ⟨"GameBuddy", "owneruser"⟩ "what game"
      "mallory" (Smart.initState 0) ⟨1, 1, 1, 1, 1, 1⟩,
   (c8_priority_order_and_uniform_pick.2 4 1 (3/10) (by norm_num) (by norm_num)
      (by norm_num)).mpr (by norm_num)⟩
